import Mathlib

/-!
Shallow embedding of the insurance-claim ingestion pipeline
(`rate_limiter.py`, `services.py`, the upload/analyze handlers of `main.py`).
Python floats for times and amounts are modelled as exact rationals; byte
strings and text are modelled as `String`.  External libraries (PIL,
pytesseract, pdf2image, the filesystem) enter as explicit oracle parameters
acting on file contents.
-/

/-- ASCII model of the Python regex class `\s` (the source texts contain only
ASCII whitespace). -/
def isPySpace (c : Char) : Bool :=
  c = ' ' || c = '\t' || c = '\n' || c = '\r' || c = Char.ofNat 11 || c = Char.ofNat 12

/-- ASCII model of the Python regex class `\w`: letters, digits, underscore. -/
def isPyWord (c : Char) : Bool :=
  c.isAlpha || c.isDigit || c = '_'

/-- Case-insensitive character comparison, modelling `re.IGNORECASE`. -/
def ciEq (a b : Char) : Bool :=
  a.toLower = b.toLower

/-- Consume the literal `lit` (case-insensitively) from the front of `s`;
return the rest on success. -/
def dropLit : List Char → List Char → Option (List Char)
  | [], s => some s
  | _ :: _, [] => none
  | c :: cs, x :: xs => if ciEq x c then dropLit cs xs else none

/-- Consume a maximal (greedy) run of whitespace, modelling `\s*` followed by a
non-whitespace literal (no backtracking is possible there). -/
def dropSpaces : List Char → List Char
  | [] => []
  | c :: cs => if isPySpace c then dropSpaces cs else c :: cs

/-- Attempt the pattern `Claim\s*Type\s*:\s*(\w+)` at the head of `s`
(case-insensitive); return the captured group.  All subpattern boundaries are
between disjoint character classes, so greedy maximal munch is exact. -/
def matchClaimTypeAt (s : List Char) : Option (List Char) := do
  let s ← dropLit ['c', 'l', 'a', 'i', 'm'] s
  let s := dropSpaces s
  let s ← dropLit ['t', 'y', 'p', 'e'] s
  let s := dropSpaces s
  let s ← dropLit [':'] s
  let s := dropSpaces s
  let w := s.takeWhile isPyWord
  if w.isEmpty then none else some w

/-- Model of `re.search` for the claim-type pattern: try each position left to right,
returning the leftmost match. -/
def searchClaimType : List Char → Option (List Char)
  | [] => none
  | s@(_ :: rest) =>
    match matchClaimTypeAt s with
    | some w => some w
    | none => searchClaimType rest

/-- Decimal digits to a natural number (commas already removed). -/
def digitsToNat (l : List Char) : Nat :=
  l.foldl (fun n c => 10 * n + (c.toNat - 48)) 0

/-- Total cents denoted by a captured amount group: integer digits (commas
stripped; an all-comma integer part behaves like Python `float(".dd")`, i.e.
0) times 100 plus the two fraction digits. -/
def amountCents (run : List Char) (d1 d2 : Char) : Nat :=
  digitsToNat (run.filter Char.isDigit) * 100 + (10 * (d1.toNat - 48) + (d2.toNat - 48))

/-- The rational value of the captured amount group after
`float(group(1).replace(",", ""))`.  The decimal value is exact here; IEEE
rounding of the Python float is not modelled. -/
def amountVal (run : List Char) (d1 d2 : Char) : ℚ :=
  (amountCents run d1 d2 : ℚ) / 100

/-- Attempt the pattern `Amount\s*:\s*\$?([\d,]+\.\d{2})` at the head of `s`
(case-insensitive); return the raw pieces of the captured group (the `[\d,]+`
run and the two fraction digits).  `[\d,]+` is a maximal run (no shorter run
can expose the required dot), `\$?` is forced (a retained dollar sign could
never start `[\d,]+`), and `\d{2}` needs exactly two digits, so the
deterministic scan below is exact. -/
def matchAmountAt (s : List Char) : Option (List Char × Char × Char) := do
  let s ← dropLit ['a', 'm', 'o', 'u', 'n', 't'] s
  let s := dropSpaces s
  let s ← dropLit [':'] s
  let s := dropSpaces s
  let s := match s with
    | '$' :: r => r
    | r => r
  let run := s.takeWhile (fun c => c.isDigit || c = ',')
  let rest := s.dropWhile (fun c => c.isDigit || c = ',')
  if run.isEmpty then none
  else
    match rest with
    | '.' :: d1 :: d2 :: _ =>
      if d1.isDigit && d2.isDigit then some (run, d1, d2) else none
    | _ => none

/-- Model of `re.search` for the amount pattern: leftmost match wins. -/
def searchAmountParts : List Char → Option (List Char × Char × Char)
  | [] => none
  | s@(_ :: rest) =>
    match matchAmountAt s with
    | some p => some p
    | none => searchAmountParts rest

/-- Leftmost amount match converted to its numeric value. -/
def searchAmount (s : List Char) : Option ℚ :=
  (searchAmountParts s).map fun p => amountVal p.1 p.2.1 p.2.2

/-- Result record `ParsedFields` of the field parser; a missing field is
`none`, never an error. -/
structure ParsedFields where
  claim_type : Option String
  amount : Option ℚ
deriving Repr, DecidableEq

/-- Model of `services.parse_claim_text`: extract `claim_type` via
`re.search(r"Claim\s*Type\s*:\s*(\w+)", text, re.IGNORECASE)` and `amount` via
`re.search(r"Amount\s*:\s*\$?([\d,]+\.\d{2})", text, re.IGNORECASE)` with
commas stripped before numeric conversion.  Total by construction, mirroring
the Python function (neither `re.search` nor `float` on the matched shape can
raise). -/
def parse_claim_text (text : String) : ParsedFields :=
  { claim_type := (searchClaimType text.toList).map fun w => String.mk w
    amount := searchAmount text.toList }

/-- Helper for evaluating the parser on concrete inputs: reduce the amount
field to a `decide`-friendly parts computation plus one rational equation. -/
theorem parse_eval (text : String) (ct : Option String) (p : List Char × Char × Char)
    (q : ℚ) (h1 : (searchClaimType text.toList).map (fun w => String.mk w) = ct)
    (h2 : searchAmountParts text.toList = some p)
    (h3 : (amountCents p.1 p.2.1 p.2.2 : ℚ) / 100 = q) :
    parse_claim_text text = { claim_type := ct, amount := some q } := by
  unfold parse_claim_text
  rw [searchAmount, h2, h1]
  have h4 : amountVal p.1 p.2.1 p.2.2 = q := h3
  simp [Option.map, h4]

/-! ## Rate limiter (`rate_limiter.py`) -/

/-- Constant `RATE_LIMIT = 30`: max requests per 60-second window per `(ip, api_key)`. -/
def RATE_LIMIT : Nat := 30

/-- One entry of `block_log`: the dict appended on a denial. -/
structure BlockEvent where
  timestamp : String
  ip : String
  api_key : String
  reason : String
deriving Repr, DecidableEq

/-- Attributes of the Python *class* `datetime.datetime` (the source does
`from datetime import datetime, timezone`, so the name `datetime` is the
class, not the module).  The class has no attribute `timezone`; that name
lives on the `datetime` module only. -/
def datetimeClassAttributes : List String :=
  ["min", "max", "resolution", "today", "now", "utcnow", "fromtimestamp",
   "utcfromtimestamp", "fromordinal", "fromisoformat", "combine", "strptime",
   "date", "time", "timetz", "replace", "astimezone", "isoformat", "tzinfo",
   "year", "month", "day", "hour", "minute", "second", "microsecond"]

/-- Python exception values surfaced by the embedded code. -/
inductive PyExn where
  | http (status : Nat) (detail : String)
  | attributeError (msg : String)
  | engine (msg : String)
deriving Repr, DecidableEq

/-- Models evaluating `datetime.now(datetime.timezone.utc).isoformat()` on the
deny path of `rate_limiter`: the attribute lookup `datetime.timezone` is
performed on the class, which does not define it, so an `AttributeError` is
raised before `datetime.now` is ever called.  `nowIso` stands for the
timestamp string the call would have produced were the attribute present. -/
def blockTimestamp (nowIso : String) : Except PyExn String :=
  if "timezone" ∈ datetimeClassAttributes then Except.ok nowIso
  else Except.error (PyExn.attributeError "type object datetime has no attribute timezone")

/-- Per-identity limiter state: `call_log[rate_key]` plus the shared
`block_log` (`deque(maxlen=100)`).  Both start empty at process start. -/
structure RateState where
  window : List ℚ
  blocks : List BlockEvent
deriving Repr, DecidableEq

/-- Line 28: `[t for t in call_log[rate_key] if t > window_start]` with
`window_start = now - 60`. -/
def prune (now : ℚ) (w : List ℚ) : List ℚ :=
  w.filter fun t => decide (now - 60 < t)

/-- Model of `deque(maxlen=100).append`: drop from the front once past capacity. -/
def pushBlock (e : BlockEvent) (l : List BlockEvent) : List BlockEvent :=
  let l2 := l ++ [e]
  if 100 < l2.length then l2.drop (l2.length - 100) else l2

/-- Model of `rate_limiter(request, api_key)` for one identity `(ip, key)` at time
`now` (`time.time()` modelled as an exact rational).  The pruned window is
written back before the limit check (line 29).  On denial the source first
builds the BlockEvent dict, whose timestamp expression raises
`AttributeError`; only if that succeeded would it append the event and raise
the 429 `HTTPException`.  On admission, `now` is appended to the window. -/
def rate_limiter (ip key : String) (now : ℚ) (nowIso : String) (s : RateState) :
    RateState × Except PyExn Unit :=
  let recent := prune now s.window
  if RATE_LIMIT ≤ recent.length then
    match blockTimestamp nowIso with
    | Except.error e => ({ window := recent, blocks := s.blocks }, Except.error e)
    | Except.ok ts =>
        ({ window := recent
           blocks := pushBlock
             { timestamp := ts, ip := ip, api_key := key, reason := "Rate limit exceeded" }
             s.blocks },
         Except.error (PyExn.http 429 "Rate limit exceeded — try again in a bit."))
  else
    ({ window := recent ++ [now], blocks := s.blocks }, Except.ok ())

/-- Whether a `rate_limiter` outcome admitted the request. -/
def allowedOf (r : Except PyExn Unit) : Bool :=
  match r with
  | Except.ok _ => true
  | Except.error _ => false

/-- Run a sequence of admission checks for one identity, collecting the
admit/deny decision of each call. -/
def admitSeq (ip key : String) (s : RateState) : List ℚ → List Bool × RateState
  | [] => ([], s)
  | t :: ts =>
    let step := rate_limiter ip key t "" s
    let rest := admitSeq ip key step.1 ts
    (allowedOf step.2 :: rest.1, rest.2)

lemma blockTimestamp_eq (s : String) :
    blockTimestamp s
      = Except.error (PyExn.attributeError "type object datetime has no attribute timezone") := by
  unfold blockTimestamp
  rw [if_neg (by decide)]

lemma prune_eq_self (now : ℚ) (w : List ℚ) (h : ∀ t ∈ w, now - 60 < t) :
    prune now w = w :=
  List.filter_eq_self.mpr fun t ht => by simpa using h t ht

lemma mem_prune (now t : ℚ) (w : List ℚ) :
    t ∈ prune now w ↔ t ∈ w ∧ now - 60 < t := by
  simp [prune]

/-- One denial step when the pruned window is already at the limit: the
window is only pruned, nothing is appended anywhere, and the outcome is the
`AttributeError`, not an admission. -/
lemma rate_limiter_deny (ip key nowIso : String) (now : ℚ) (s : RateState)
    (hfull : RATE_LIMIT ≤ (prune now s.window).length) :
    rate_limiter ip key now nowIso s
      = ({ window := prune now s.window, blocks := s.blocks },
         Except.error (PyExn.attributeError "type object datetime has no attribute timezone")) := by
  simp [rate_limiter, hfull, blockTimestamp_eq]

/-- One admission step when the pruned window is below the limit. -/
lemma rate_limiter_allow (ip key nowIso : String) (now : ℚ) (s : RateState)
    (hroom : (prune now s.window).length < RATE_LIMIT) :
    rate_limiter ip key now nowIso s
      = ({ window := prune now s.window ++ [now], blocks := s.blocks }, Except.ok ()) := by
  simp [rate_limiter, Nat.not_le.mpr hroom]

/-- Workhorse for the sliding-window property: as long as every timestamp
(already-admitted ones in `acc` and incoming ones in `ts`) lies in one
interval `[lo, lo + 60)`, no pruning ever occurs, the first
`RATE_LIMIT - acc.length` incoming requests are admitted and appended, and
every later one is denied (with the block log untouched, since the denial
path dies in the `AttributeError`). -/
lemma admitSeq_in_window (ip key : String) (lo : ℚ) (ts : List ℚ) :
    ∀ (acc : List ℚ) (bl : List BlockEvent),
      (∀ t ∈ acc, lo ≤ t ∧ t < lo + 60) →
      (∀ t ∈ ts, lo ≤ t ∧ t < lo + 60) →
      admitSeq ip key ⟨acc, bl⟩ ts
        = (List.replicate (min ts.length (RATE_LIMIT - acc.length)) true
             ++ List.replicate (ts.length - (RATE_LIMIT - acc.length)) false,
           ⟨acc ++ ts.take (RATE_LIMIT - acc.length), bl⟩) := by
  induction ts with
  | nil => intro acc bl _ _; simp [admitSeq]
  | cons t ts ih =>
    intro acc bl hacc hts
    have ht := hts t (by simp)
    have hts' : ∀ x ∈ ts, lo ≤ x ∧ x < lo + 60 := fun x hx => hts x (by simp [hx])
    have hprune : prune t acc = acc :=
      prune_eq_self _ _ fun a ha => by have h1 := (hacc a ha).1; have h2 := ht.2; linarith
    by_cases h30 : RATE_LIMIT ≤ acc.length
    · have hstep := rate_limiter_deny ip key "" t ⟨acc, bl⟩ (by simpa [hprune] using h30)
      have hm : RATE_LIMIT - acc.length = 0 := by omega
      simp only [admitSeq, hstep, hprune, allowedOf]
      rw [ih acc bl hacc hts']
      simp [hm, List.replicate_succ]
    · push_neg at h30
      have hstep := rate_limiter_allow ip key "" t ⟨acc, bl⟩ (by simpa [hprune] using h30)
      have hacc' : ∀ x ∈ acc ++ [t], lo ≤ x ∧ x < lo + 60 := by
        intro x hx
        rcases List.mem_append.mp hx with h | h
        · exact hacc x h
        · simp at h; subst h; exact ht
      obtain ⟨m', hm'⟩ : ∃ m', RATE_LIMIT - acc.length = m' + 1 :=
        ⟨RATE_LIMIT - acc.length - 1, by omega⟩
      have hm'' : RATE_LIMIT - (acc ++ [t]).length = m' := by
        simp only [List.length_append, List.length_singleton]; omega
      simp only [admitSeq, hstep, hprune, allowedOf]
      rw [ih (acc ++ [t]) bl hacc' hts', hm'']
      have e1 : min (t :: ts).length (RATE_LIMIT - acc.length) = min ts.length m' + 1 := by
        simp only [List.length_cons, hm']; omega
      have e2 : (t :: ts).length - (RATE_LIMIT - acc.length) = ts.length - m' := by
        simp only [List.length_cons, hm']; omega
      rw [e1, e2, hm', List.replicate_succ, List.take_succ_cons]
      simp

/-- C2 (amended): for one identity with all requests strictly within a
60-second interval, starting from the empty process-start state, exactly the
first 30 requests are admitted and all later ones denied (identical
timestamps counting individually); pruning keeps exactly the timestamps `t`
with `now - 60 < t`, i.e. it also removes a timestamp aged exactly 60 s, not
only strictly older ones; and once the oldest admitted timestamp is at least
60 seconds old (aged to 60 s or past, not only strictly past) exactly one
more request becomes allowed: that request is admitted with the aged
timestamp dropped, after which the refilled 30-element window denies again. -/
theorem C2_sliding_window_amended (ip key : String) (lo : ℚ) (ts : List ℚ)
    (hts : ∀ t ∈ ts, lo ≤ t ∧ t < lo + 60) :
    ((admitSeq ip key ⟨[], []⟩ ts).1
        = List.replicate (min ts.length RATE_LIMIT) true
            ++ List.replicate (ts.length - RATE_LIMIT) false
      ∧ (admitSeq ip key ⟨[], []⟩ ts).2 = ⟨ts.take RATE_LIMIT, []⟩)
    ∧ (∀ (now x : ℚ) (w : List ℚ), x ∈ prune now w ↔ x ∈ w ∧ now - 60 < x)
    ∧ (∀ (now t0 : ℚ) (rest : List ℚ) (bl : List BlockEvent),
         (t0 :: rest).length = RATE_LIMIT → t0 ≤ now - 60 →
         (∀ t ∈ rest, now - 60 < t) →
         rate_limiter ip key now "" ⟨t0 :: rest, bl⟩ = (⟨rest ++ [now], bl⟩, Except.ok ()))
    ∧ (∀ (now : ℚ) (w : List ℚ) (bl : List BlockEvent),
         w.length = RATE_LIMIT → (∀ t ∈ w, now - 60 < t) →
         allowedOf (rate_limiter ip key now "" ⟨w, bl⟩).2 = false
           ∧ (rate_limiter ip key now "" ⟨w, bl⟩).1.window = w) := by
  refine ⟨?_, fun now x w => mem_prune now x w, ?_, ?_⟩
  · have h := admitSeq_in_window ip key lo ts [] [] (by simp) hts
    rw [h]
    simp
  · intro now t0 rest bl hlen h0 hrest
    have hp : prune now (t0 :: rest) = rest := by
      unfold prune
      rw [List.filter_cons_of_neg (by simpa using not_lt.mpr h0)]
      exact prune_eq_self now rest hrest
    have hroom : (prune now (t0 :: rest)).length < RATE_LIMIT := by
      rw [hp]
      simp only [List.length_cons] at hlen
      omega
    have h := rate_limiter_allow ip key "" now ⟨t0 :: rest, bl⟩ hroom
    rw [h, hp]
  · intro now w bl hlen hw
    have hp : prune now w = w := prune_eq_self now w hw
    have h := rate_limiter_deny ip key "" now ⟨w, bl⟩ (by rw [hp, hlen])
    rw [h, hp]
    exact ⟨rfl, rfl⟩

/-- Witness for C2 (amended): three requests at times 0, 0, 59 (two identical
timestamps) are all admitted, by the theorem applied at this concrete
input. -/
theorem C2_sliding_window_amended_witness :
    (∀ t ∈ ([0, 0, 59] : List ℚ), 0 ≤ t ∧ t < 0 + 60) ∧
    (admitSeq "203.0.113.9" "key1" ⟨[], []⟩ ([0, 0, 59] : List ℚ)).1
      = List.replicate (min 3 RATE_LIMIT) true ++ List.replicate (3 - RATE_LIMIT) false := by
  have hyp : ∀ t ∈ ([0, 0, 59] : List ℚ), 0 ≤ t ∧ t < 0 + 60 := by
    intro t ht
    fin_cases ht <;> norm_num
  exact ⟨hyp, (C2_sliding_window_amended "203.0.113.9" "key1" 0 [0, 0, 59] hyp).1.1⟩

/-- C2 counterexample: with 30 requests admitted at time 0, a request at time
60 is **admitted** by the code, although the oldest timestamp has aged
exactly 60 seconds and not "past 60 seconds" as the claim requires; the
pruning step removed the timestamp 0 even though 0 is not older than
`now - 60 = 0`.  So both the "ages past 60 seconds" clause and the "removes
only timestamps older than now-60s" clause of the claim are false of the
code. -/
theorem C2_counterexample :
    allowedOf (rate_limiter "203.0.113.9" "key1" 60 "" ⟨List.replicate 30 (0 : ℚ), []⟩).2 = true
    ∧ prune 60 (List.replicate 30 (0 : ℚ)) = []
    ∧ ¬ ((0 : ℚ) < 60 - 60) := by
  have hp : prune 60 (List.replicate 30 (0 : ℚ)) = [] := by
    unfold prune
    rw [List.filter_eq_nil_iff]
    intro a ha
    have := List.eq_of_mem_replicate ha
    subst this
    norm_num
  refine ⟨?_, hp, by norm_num⟩
  have h := rate_limiter_allow "203.0.113.9" "key1" "" 60 ⟨List.replicate 30 (0 : ℚ), []⟩
    (by rw [hp]; simp [RATE_LIMIT])
  rw [h]
  rfl

/-- C3: evaluating `rate_limiter` at a denial (31st request while 30 recent
timestamps are live) shows the deny path raises `AttributeError` — the
expression `datetime.now(datetime.timezone.utc)` looks up `timezone` on the
`datetime` class — **before** the BlockEvent is appended or the 429
`HTTPException` is raised: the block log stays empty and the caller sees an
internal error, not a too-many-requests outcome. -/
theorem C3_denial_attribute_error :
    rate_limiter "203.0.113.9" "abc123" 100 "2026-01-01T00:00:00+00:00"
        ⟨List.replicate 30 (70 : ℚ), []⟩
      = (⟨List.replicate 30 (70 : ℚ), []⟩,
         Except.error (PyExn.attributeError "type object datetime has no attribute timezone")) := by
  have hp : prune 100 (List.replicate 30 (70 : ℚ)) = List.replicate 30 70 :=
    prune_eq_self _ _ (by
      intro t ht
      have := List.eq_of_mem_replicate ht
      subst this
      norm_num)
  have h := rate_limiter_deny "203.0.113.9" "abc123" "2026-01-01T00:00:00+00:00" 100
    ⟨List.replicate 30 (70 : ℚ), []⟩ (by rw [hp]; simp [RATE_LIMIT])
  rw [h, hp]

/-! ## Text extraction (`services.extract_text_from_file`) -/

/-- Model of `os.path.splitext(path)[1].lower()`: the extension (with its dot) of the
final path component, where leading dots of the basename do not begin an
extension, lowercased. -/
def splitextLower (path : String) : String :=
  let basename := ((path.toList.reverse.takeWhile fun c => c ≠ '/').reverse)
  let core := basename.drop (basename.takeWhile (fun c => c = '.')).length
  let afterDot := core.reverse.takeWhile fun c => c ≠ '.'
  if afterDot.length = core.length then ""
  else String.mk (('.' :: afterDot.reverse).map Char.toLower)

/-- Oracles for the external libraries used by extraction, acting on the
bytes of the file at the given path: `PIL.Image.open`, `pytesseract
.image_to_string`, `pdf2image.convert_from_path` (pages as images, in page
order) and `open(...).read()` with UTF-8 decoding.  Each may raise, which we
model as `Except.error`. -/
structure OcrEnv where
  openImage : String → Except PyExn String
  image_to_string : String → Except PyExn String
  convert_from_path : String → Except PyExn (List String)
  read_text : String → Except PyExn String

/-- The list comprehension `[pytesseract.image_to_string(page) for page in
pages]`: OCR each page in order, aborting the whole extraction at the first
failing page — no partial per-page output survives. -/
def ocrPages (env : OcrEnv) : List String → Except PyExn (List String)
  | [] => Except.ok []
  | p :: ps => do
    let t ← env.image_to_string p
    let ts ← ocrPages env ps
    Except.ok (t :: ts)

/-- Model of `str(e)` for the exceptions flowing into the handler of
`extract_text_from_file`; a starlette `HTTPException` prints as
`"{status}: {detail}"`. -/
def pyStr : PyExn → String
  | PyExn.http s d => toString s ++ ": " ++ d
  | PyExn.attributeError m => m
  | PyExn.engine m => m

/-- Model of `services.extract_text_from_file`: dispatch **on the lowercased filename
extension** of `path` (not on any sniffed content type) to image OCR, per-page
PDF rasterize+OCR joined by single newlines, or plain-text read; an
unrecognised extension raises `HTTPException(400, "Unsupported file type:
...")` inside the `try`, and the catch-all `except Exception` rewraps every
failure — that 400 included — as `HTTPException(500, "Failed to extract
text: " + str(e))`.  `extractTryBody` is the body of the `try` block,
dispatching on the already-computed lowercased extension;
`extract_text_from_file` wraps it in the handler. -/
def extractTryBody (env : OcrEnv) (ext content : String) : Except PyExn String :=
  if ext = ".png" ∨ ext = ".jpg" ∨ ext = ".jpeg" then do
    let img ← env.openImage content
    env.image_to_string img
  else if ext = ".pdf" then do
    let pages ← env.convert_from_path content
    let texts ← ocrPages env pages
    Except.ok (String.intercalate "\n" texts)
  else if ext = ".txt" then
    env.read_text content
  else
    Except.error (PyExn.http 400 ("Unsupported file type: " ++ ext))

def extract_text_from_file (env : OcrEnv) (path content : String) : Except PyExn String :=
  match extractTryBody env (splitextLower path) content with
  | Except.ok t => Except.ok t
  | Except.error e => Except.error (PyExn.http 500 ("Failed to extract text: " ++ pyStr e))

/-- An `OcrEnv` whose external calls all succeed, built from total functions:
`raster` rasterizes pdf bytes into page images and `ocr` reads an image. -/
def totalOcrEnv (ocr : String → String) (raster : String → List String)
    (readT : String → String) : OcrEnv where
  openImage := Except.ok
  image_to_string := fun i => Except.ok (ocr i)
  convert_from_path := fun c => Except.ok (raster c)
  read_text := fun c => Except.ok (readT c)

/-- A concrete environment for counterexamples: text bytes read back as
themselves; `PIL` fails to decode the text bytes `"hello claim"` as an image
(as it would); any other image decodes to itself and OCRs to itself; a PDF
rasterizes to a single page. -/
def plainEnv : OcrEnv where
  openImage := fun c =>
    if c = "hello claim" then Except.error (PyExn.engine "cannot identify image file")
    else Except.ok c
  image_to_string := Except.ok
  convert_from_path := fun c => Except.ok [c]
  read_text := Except.ok

lemma except_bind_ok {ε α β : Type} (a : α) (f : α → Except ε β) :
    (Except.ok a : Except ε α) >>= f = f a := rfl

lemma ocrPages_total (ocr : String → String) (raster : String → List String)
    (readT : String → String) (ps : List String) :
    ocrPages (totalOcrEnv ocr raster readT) ps = Except.ok (ps.map ocr) := by
  induction ps with
  | nil => rfl
  | cons p ps ih =>
    simp only [ocrPages, List.map_cons]
    rw [show (totalOcrEnv ocr raster readT).image_to_string p = Except.ok (ocr p) from rfl,
      except_bind_ok, ih, except_bind_ok]

/-- C8: PDF extraction rasterizes the pages in page order, OCRs each, and
joins the per-page outputs with exactly one newline between consecutive
pages; in particular a 3-page PDF whose pages OCR to "A", "B", "C" extracts
to exactly "A\nB\nC". -/
theorem C8_pdf_page_join :
    (∀ (ocr : String → String) (raster : String → List String) (readT : String → String)
        (path content : String), splitextLower path = ".pdf" →
        extract_text_from_file (totalOcrEnv ocr raster readT) path content
          = Except.ok (String.intercalate "\n" ((raster content).map ocr)))
    ∧ extract_text_from_file (totalOcrEnv id (fun _ => ["A", "B", "C"]) id) "scan.pdf" "%PDF"
        = Except.ok "A\nB\nC" := by
  have main : ∀ (ocr : String → String) (raster : String → List String)
      (readT : String → String) (path content : String), splitextLower path = ".pdf" →
      extract_text_from_file (totalOcrEnv ocr raster readT) path content
        = Except.ok (String.intercalate "\n" ((raster content).map ocr)) := by
    intro ocr raster readT path content hext
    have hbody : extractTryBody (totalOcrEnv ocr raster readT) ".pdf" content
        = Except.ok (String.intercalate "\n" ((raster content).map ocr)) := by
      unfold extractTryBody
      rw [if_neg (by decide), if_pos rfl]
      rw [show (totalOcrEnv ocr raster readT).convert_from_path content
          = Except.ok (raster content) from rfl, except_bind_ok,
        ocrPages_total ocr raster readT, except_bind_ok]
    unfold extract_text_from_file
    rw [hext, hbody]
  refine ⟨main, ?_⟩
  rw [main id (fun _ => ["A", "B", "C"]) id "scan.pdf" "%PDF" (by decide)]
  rfl

/-- Witness for C8: a concrete 2-page PDF (note the uppercase `.PDF`
extension is lowercased before dispatch), via the theorem itself. -/
theorem C8_pdf_page_join_witness :
    splitextLower "uploads/claim.PDF" = ".pdf" ∧
    extract_text_from_file (totalOcrEnv (fun s => s ++ "!") (fun _ => ["p1", "p2"]) id)
        "uploads/claim.PDF" "%PDF-1.4"
      = Except.ok "p1!\np2!" := by
  have h : splitextLower "uploads/claim.PDF" = ".pdf" := by decide
  refine ⟨h, ?_⟩
  rw [C8_pdf_page_join.1 (fun s => s ++ "!") (fun _ => ["p1", "p2"]) id
    "uploads/claim.PDF" "%PDF-1.4" h]
  rfl

/-- C5 counterexample: two byte-identical documents (content "hello claim",
which is plain text, so both have the same sniffed type `text/plain`) whose
stored names differ only in extension extract **differently**: the `.txt`
copy is read back verbatim, while the `.png` copy is routed to image OCR,
where PIL cannot decode text bytes and the whole extraction fails.  So the
extraction method is selected by filename extension, not by the sniffed
content type, refuting the claim. -/
theorem C5_counterexample :
    extract_text_from_file plainEnv "uploads/doc.txt" "hello claim" = Except.ok "hello claim"
    ∧ extract_text_from_file plainEnv "uploads/doc.png" "hello claim"
        = Except.error (PyExn.http 500 "Failed to extract text: cannot identify image file") :=
  ⟨rfl, rfl⟩

/-- C5 (amended): the extraction method is selected by the lowercased
filename extension of the document's stored path — two documents with equal
bytes and equal extensions extract identically, whatever the rest of the
name, but byte-identical documents with different extensions may be processed
by different methods (see the counterexample). -/
theorem C5_extension_dispatch_amended (env : OcrEnv) (p1 p2 c : String)
    (h : splitextLower p1 = splitextLower p2) :
    extract_text_from_file env p1 c = extract_text_from_file env p2 c := by
  unfold extract_text_from_file
  rw [h]

/-- Witness for C5 (amended): `.PNG` and `.png` paths with the same bytes
extract identically, by the theorem at a concrete input. -/
theorem C5_extension_dispatch_amended_witness :
    splitextLower "uploads/report.PNG" = splitextLower "scan.png" ∧
    extract_text_from_file plainEnv "uploads/report.PNG" "imgbytes"
      = extract_text_from_file plainEnv "scan.png" "imgbytes" :=
  ⟨by decide,
   C5_extension_dispatch_amended plainEnv "uploads/report.PNG" "scan.png" "imgbytes" (by decide)⟩

/-- C6: at the boundary of `extract_text_from_file` the unsupported-kind
outcome and the engine-failure outcome are **conflated into the same error
kind**: the function's own `except Exception` catches the internal
`HTTPException(400, "Unsupported file type: ...")` and rewraps it as the same
`HTTPException(500, "Failed to extract text: ...")` that an OCR-engine
failure produces.  Both evaluations below surface status 500 with the same
prefix; the intended 400 survives only inside the detail string. -/
theorem C6_conflated_error_kinds :
    extract_text_from_file plainEnv "uploads/doc.xyz" "hello claim"
      = Except.error (PyExn.http 500 "Failed to extract text: 400: Unsupported file type: .xyz")
    ∧ extract_text_from_file plainEnv "uploads/scan2.png" "hello claim"
        = Except.error (PyExn.http 500 "Failed to extract text: cannot identify image file") :=
  ⟨rfl, rfl⟩

/-! ## Upload validation (`main.upload_file`) -/

/-- Constant `ALLOWED_MIME_TYPES` from `main.py` (a set in the source; order is not
observable in the embedded logic). -/
def ALLOWED_MIME_TYPES : List String :=
  ["image/png", "image/jpeg", "application/pdf", "text/plain"]

/-- Table `FILE_SIZE_LIMITS` of per-type byte ceilings; `none` models absence from
the dict (the code checks `mime_type not in FILE_SIZE_LIMITS`). -/
def FILE_SIZE_LIMITS (mime : String) : Option Nat :=
  if mime = "image/png" then some (15 * 1024 * 1024)
  else if mime = "image/jpeg" then some (15 * 1024 * 1024)
  else if mime = "application/pdf" then some (20 * 1024 * 1024)
  else if mime = "text/plain" then some (5 * 1024 * 1024)
  else none

/-- The structured `{error, message}` detail of an `HTTPException` raised by
the upload handler. -/
structure HttpDetail where
  error : String
  message : String
deriving Repr, DecidableEq

/-- Outcome of the upload handler as seen by the caller. -/
inductive UploadResult where
  | success
  | failure (status : Nat) (detail : HttpDetail)
deriving Repr, DecidableEq

/-- The validation part of the `try` block of `upload_file`, after the MIME
type has been sniffed from the saved bytes: reject unknown sniffed types with
400/INVALID_FILE_TYPE, then reject oversize files with 400/FILE_TOO_LARGE
reporting the exceeded limit (the source formats the limit as
`{max_size / (1024 * 1024)}MB`, a Python float, hence the trailing ".0"; the
quoted type name and the allow-list echo of the source message are
abbreviated here).  On both rejections the temp file is removed before
raising. -/
def upload_file_validate (mime : String) (size : Nat) : UploadResult :=
  match FILE_SIZE_LIMITS mime with
  | none =>
    UploadResult.failure 400
      { error := "INVALID_FILE_TYPE"
        message := "File type " ++ mime ++ " is not allowed." }
  | some maxSize =>
    if maxSize < size then
      UploadResult.failure 400
        { error := "FILE_TOO_LARGE"
          message := "File exceeds limit. Max allowed: "
            ++ toString (maxSize / (1024 * 1024)) ++ ".0MB" }
    else
      UploadResult.success

/-- Model of `main.upload_file` as the caller observes it: the whole `try` body —
including the two `HTTPException(400, ...)` raises above — is guarded by
`except Exception`, which logs and re-raises
`HTTPException(500, {error: UPLOAD_FAILED, ...})`; since starlette
`HTTPException` subclasses `Exception`, every validation rejection is caught
and replaced by the generic 500. -/
def upload_file (mime : String) (size : Nat) : UploadResult :=
  match upload_file_validate mime size with
  | UploadResult.success => UploadResult.success
  | UploadResult.failure _ _ =>
    UploadResult.failure 500
      { error := "UPLOAD_FAILED"
        message := "File upload failed due to an internal error." }

/-- C4: the validation logic produces exactly the claimed codes internally —
400/INVALID_FILE_TYPE for a sniffed type outside the allow-list and
400/FILE_TOO_LARGE (naming the exceeded limit) for an oversize allowed type —
but the caller never receives them: the handler's own catch-all `except
Exception` intercepts the `HTTPException` and the caller gets
500/UPLOAD_FAILED in both cases.  Evaluations at the failing inputs. -/
theorem C4_codes_swallowed :
    upload_file_validate "application/zip" 1000
      = UploadResult.failure 400
          { error := "INVALID_FILE_TYPE"
            message := "File type application/zip is not allowed." }
    ∧ upload_file_validate "image/png" (15 * 1024 * 1024 + 1)
        = UploadResult.failure 400
            { error := "FILE_TOO_LARGE"
              message := "File exceeds limit. Max allowed: 15.0MB" }
    ∧ upload_file "application/zip" 1000
        = UploadResult.failure 500
            { error := "UPLOAD_FAILED"
              message := "File upload failed due to an internal error." }
    ∧ upload_file "image/png" (15 * 1024 * 1024 + 1)
        = UploadResult.failure 500
            { error := "UPLOAD_FAILED"
              message := "File upload failed due to an internal error." }
    ∧ upload_file "text/plain" 1000 = UploadResult.success :=
  ⟨rfl, by decide, rfl, by decide, rfl⟩

/-! ## OCR analysis pipeline (`main.analyze_claim`) -/

/-- The persisted fields of a `Claim` row touched by `analyze_claim`
(`models.Claim`: `claim_type` and `amount` are non-nullable, `ocr_text` and
`document_path` nullable). -/
structure ClaimRec where
  ocr_text : Option String
  claim_type : String
  amount : ℚ
  document_path : Option String
deriving Repr, DecidableEq

/-- Observable events of one `analyze_claim` run, in execution order:
the extraction attempt, the `parse_claim_text` call, the phase-1
`db.commit()` of the raw OCR text, and the conditional phase-2 `db.commit()`
of the parsed fields. -/
inductive AnalyzeEv where
  | extractText
  | parseFields
  | commitRaw
  | commitParsed
deriving Repr, DecidableEq

/-- Returns `true` when some occurrence of `a` strictly precedes an occurrence of `b`
in the list. -/
def listBefore {α : Type} [DecidableEq α] (a b : α) : List α → Bool
  | [] => false
  | x :: xs => if x = a then decide (b ∈ xs) else listBefore a b xs

/-- Model of `main.analyze_claim` for one claim row: 404 when the row has no document
path or the file is absent (`fs` maps an existing path to its bytes); then,
inside the `try`: extract text (an `HTTPException` from
`extract_text_from_file` is caught by the handler and replaced by the generic
500), **then call `parse_claim_text` (line 383), then** assign
`claim.ocr_text` and run the phase-1 `db.commit()` (line 391); then apply
`claim_type` when parsing found one (Python truthiness: the captured `\w+`
group is never empty, so truthiness coincides with presence) and `amount`
when not `None`, and run the phase-2 commit only if at least one field was
applied.  Returns the final persisted row, the event trace, and the
response outcome. -/
def analyze_claim (env : OcrEnv) (fs : String → Option String) (c : ClaimRec) :
    ClaimRec × List AnalyzeEv × Except PyExn Unit :=
  match c.document_path with
  | none => (c, [], Except.error (PyExn.http 404 "Document file not found for this claim."))
  | some p =>
    match fs p with
    | none => (c, [], Except.error (PyExn.http 404 "Document file not found for this claim."))
    | some content =>
      match extract_text_from_file env p content with
      | Except.error _ =>
        (c, [AnalyzeEv.extractText],
         Except.error
           (PyExn.http 500 "OCR analysis failed. Please check the uploaded file format or contents."))
      | Except.ok t =>
        match (parse_claim_text t).claim_type, (parse_claim_text t).amount with
        | none, none =>
          ({ c with ocr_text := some t },
           [AnalyzeEv.extractText, AnalyzeEv.parseFields, AnalyzeEv.commitRaw],
           Except.ok ())
        | some k, none =>
          ({ c with ocr_text := some t, claim_type := k },
           [AnalyzeEv.extractText, AnalyzeEv.parseFields, AnalyzeEv.commitRaw,
            AnalyzeEv.commitParsed],
           Except.ok ())
        | none, some a =>
          ({ c with ocr_text := some t, amount := a },
           [AnalyzeEv.extractText, AnalyzeEv.parseFields, AnalyzeEv.commitRaw,
            AnalyzeEv.commitParsed],
           Except.ok ())
        | some k, some a =>
          ({ c with ocr_text := some t, claim_type := k, amount := a },
           [AnalyzeEv.extractText, AnalyzeEv.parseFields, AnalyzeEv.commitRaw,
            AnalyzeEv.commitParsed],
           Except.ok ())

/-- Filesystem for the counterexample run: one stored document whose text
parses to no fields. -/
def fsDoc : String → Option String :=
  fun p => if p = "uploads/doc.txt" then some "hello world" else none

/-- A claim row pointing at that document. -/
def claimDoc : ClaimRec :=
  { ocr_text := none, claim_type := "Auto", amount := 50, document_path := some "uploads/doc.txt" }

lemma analyze_err (env : OcrEnv) (fs : String → Option String) (c : ClaimRec)
    (p content : String) (e : PyExn) (hp : c.document_path = some p)
    (hfs : fs p = some content)
    (he : extract_text_from_file env p content = Except.error e) :
    analyze_claim env fs c
      = (c, [AnalyzeEv.extractText],
         Except.error
           (PyExn.http 500 "OCR analysis failed. Please check the uploaded file format or contents.")) := by
  simp only [analyze_claim, hp, hfs, he]

lemma analyze_ok_none_none (env : OcrEnv) (fs : String → Option String) (c : ClaimRec)
    (p content t : String) (hp : c.document_path = some p) (hfs : fs p = some content)
    (ht : extract_text_from_file env p content = Except.ok t)
    (hct : (parse_claim_text t).claim_type = none)
    (ham : (parse_claim_text t).amount = none) :
    analyze_claim env fs c
      = ({ c with ocr_text := some t },
         [AnalyzeEv.extractText, AnalyzeEv.parseFields, AnalyzeEv.commitRaw],
         Except.ok ()) := by
  simp only [analyze_claim, hp, hfs, ht, hct, ham]

lemma analyze_ok_some_none (env : OcrEnv) (fs : String → Option String) (c : ClaimRec)
    (p content t k : String) (hp : c.document_path = some p) (hfs : fs p = some content)
    (ht : extract_text_from_file env p content = Except.ok t)
    (hct : (parse_claim_text t).claim_type = some k)
    (ham : (parse_claim_text t).amount = none) :
    analyze_claim env fs c
      = ({ c with ocr_text := some t, claim_type := k },
         [AnalyzeEv.extractText, AnalyzeEv.parseFields, AnalyzeEv.commitRaw,
          AnalyzeEv.commitParsed],
         Except.ok ()) := by
  simp only [analyze_claim, hp, hfs, ht, hct, ham]

lemma analyze_ok_none_some (env : OcrEnv) (fs : String → Option String) (c : ClaimRec)
    (p content t : String) (a : ℚ) (hp : c.document_path = some p)
    (hfs : fs p = some content)
    (ht : extract_text_from_file env p content = Except.ok t)
    (hct : (parse_claim_text t).claim_type = none)
    (ham : (parse_claim_text t).amount = some a) :
    analyze_claim env fs c
      = ({ c with ocr_text := some t, amount := a },
         [AnalyzeEv.extractText, AnalyzeEv.parseFields, AnalyzeEv.commitRaw,
          AnalyzeEv.commitParsed],
         Except.ok ()) := by
  simp only [analyze_claim, hp, hfs, ht, hct, ham]

lemma analyze_ok_some_some (env : OcrEnv) (fs : String → Option String) (c : ClaimRec)
    (p content t k : String) (a : ℚ) (hp : c.document_path = some p)
    (hfs : fs p = some content)
    (ht : extract_text_from_file env p content = Except.ok t)
    (hct : (parse_claim_text t).claim_type = some k)
    (ham : (parse_claim_text t).amount = some a) :
    analyze_claim env fs c
      = ({ c with ocr_text := some t, claim_type := k, amount := a },
         [AnalyzeEv.extractText, AnalyzeEv.parseFields, AnalyzeEv.commitRaw,
          AnalyzeEv.commitParsed],
         Except.ok ()) := by
  simp only [analyze_claim, hp, hfs, ht, hct, ham]

/-- C1 counterexample: a run in which extraction succeeds and parsing finds
nothing.  The event trace is extract, **parse**, then the only commit: the
`parse_claim_text` call (line 383 of `main.py`) precedes the phase-1
`db.commit()` (line 391), so the raw text is *not* persisted before field
parsing is consulted — refuting the claimed ordering (the durability
consequences themselves hold, see the amended theorem). -/
theorem C1_counterexample :
    (analyze_claim plainEnv fsDoc claimDoc).2.1
        = [AnalyzeEv.extractText, AnalyzeEv.parseFields, AnalyzeEv.commitRaw]
    ∧ listBefore AnalyzeEv.parseFields AnalyzeEv.commitRaw
        (analyze_claim plainEnv fsDoc claimDoc).2.1 = true
    ∧ listBefore AnalyzeEv.commitRaw AnalyzeEv.parseFields
        (analyze_claim plainEnv fsDoc claimDoc).2.1 = false :=
  ⟨rfl, rfl, rfl⟩

/-- C1 (amended): for every claim whose document extraction succeeds, field
parsing is consulted first and the raw extracted text is then persisted by
the phase-1 commit (parsing is total, so the inverted order has no
persistent effect); if parsing finds neither claim_type nor amount, no
second commit occurs and the persisted row is exactly the prior row plus the
raw text; if parsing finds at least one field, a second commit applies
exactly those fields; and if extraction fails, no commit occurs at all and
the prior ocr_text, claim_type and amount are unchanged. -/
theorem C1_two_phase_amended (env : OcrEnv) (fs : String → Option String) (c : ClaimRec)
    (p content : String) (hp : c.document_path = some p) (hfs : fs p = some content) :
    (∀ t, extract_text_from_file env p content = Except.ok t →
      ((analyze_claim env fs c).1.ocr_text = some t
       ∧ listBefore AnalyzeEv.parseFields AnalyzeEv.commitRaw
           (analyze_claim env fs c).2.1 = true
       ∧ ((parse_claim_text t).claim_type = none → (parse_claim_text t).amount = none →
            (analyze_claim env fs c).2.1
                = [AnalyzeEv.extractText, AnalyzeEv.parseFields, AnalyzeEv.commitRaw]
              ∧ (analyze_claim env fs c).1 = { c with ocr_text := some t })
       ∧ (((parse_claim_text t).claim_type ≠ none ∨ (parse_claim_text t).amount ≠ none) →
            (analyze_claim env fs c).2.1
                = [AnalyzeEv.extractText, AnalyzeEv.parseFields, AnalyzeEv.commitRaw,
                   AnalyzeEv.commitParsed]
              ∧ (analyze_claim env fs c).1.claim_type
                  = ((parse_claim_text t).claim_type).getD c.claim_type
              ∧ (analyze_claim env fs c).1.amount
                  = ((parse_claim_text t).amount).getD c.amount)))
    ∧ (∀ e, extract_text_from_file env p content = Except.error e →
        (analyze_claim env fs c).1 = c
        ∧ AnalyzeEv.commitRaw ∉ (analyze_claim env fs c).2.1
        ∧ AnalyzeEv.commitParsed ∉ (analyze_claim env fs c).2.1) := by
  constructor
  · intro t ht
    rcases hct : (parse_claim_text t).claim_type with _ | k
    · rcases ham : (parse_claim_text t).amount with _ | a
      · rw [analyze_ok_none_none env fs c p content t hp hfs ht hct ham]
        refine ⟨rfl, rfl, fun _ _ => ⟨rfl, rfl⟩, ?_⟩
        intro hor
        rcases hor with h1 | h1 <;> exact absurd rfl h1
      · rw [analyze_ok_none_some env fs c p content t a hp hfs ht hct ham]
        refine ⟨rfl, rfl, ?_, fun _ => ⟨rfl, rfl, rfl⟩⟩
        intro _ h2
        cases h2
    · rcases ham : (parse_claim_text t).amount with _ | a
      · rw [analyze_ok_some_none env fs c p content t k hp hfs ht hct ham]
        refine ⟨rfl, rfl, ?_, fun _ => ⟨rfl, rfl, rfl⟩⟩
        intro h1 _
        cases h1
      · rw [analyze_ok_some_some env fs c p content t k a hp hfs ht hct ham]
        refine ⟨rfl, rfl, ?_, fun _ => ⟨rfl, rfl, rfl⟩⟩
        intro h1 _
        cases h1
  · intro e he
    rw [analyze_err env fs c p content e hp hfs he]
    exact ⟨rfl, by simp, by simp⟩

/-- Filesystem and claim row for the C1 witness: a document whose text
parses to both fields. -/
def fsW : String → Option String :=
  fun p => if p = "uploads/w.txt" then some "Claim Type: Home\nAmount: 10.00" else none

/-- Claim row pointing at the witness document. -/
def claimW : ClaimRec :=
  { ocr_text := none, claim_type := "Auto", amount := 50, document_path := some "uploads/w.txt" }

/-- Witness for C1 (amended): a concrete successful run, via the theorem. -/
theorem C1_two_phase_amended_witness :
    claimW.document_path = some "uploads/w.txt"
    ∧ fsW "uploads/w.txt" = some "Claim Type: Home\nAmount: 10.00"
    ∧ extract_text_from_file plainEnv "uploads/w.txt" "Claim Type: Home\nAmount: 10.00"
        = Except.ok "Claim Type: Home\nAmount: 10.00"
    ∧ (analyze_claim plainEnv fsW claimW).1.ocr_text
        = some "Claim Type: Home\nAmount: 10.00" := by
  have h := C1_two_phase_amended plainEnv fsW claimW "uploads/w.txt"
    "Claim Type: Home\nAmount: 10.00" rfl rfl
  exact ⟨rfl, rfl, rfl, (h.1 _ rfl).1⟩

/-- C9: re-running `analyze_claim` on the persisted result of a first run
(same document bytes, same deterministic extraction environment) leaves the
persisted row exactly as the first run did: the second run re-derives the
same text and parse results and re-commits identical values. -/
theorem C9_ingest_idempotent (env : OcrEnv) (fs : String → Option String) (c : ClaimRec) :
    (analyze_claim env fs (analyze_claim env fs c).1).1 = (analyze_claim env fs c).1 := by
  rcases hdp : c.document_path with _ | p
  · simp only [analyze_claim, hdp]
  · rcases hfs : fs p with _ | content
    · simp only [analyze_claim, hdp, hfs]
    · rcases hex : extract_text_from_file env p content with e | t
      · simp only [analyze_claim, hdp, hfs, hex]
      · rcases hct : (parse_claim_text t).claim_type with _ | k <;>
          rcases ham : (parse_claim_text t).amount with _ | a <;>
          simp only [analyze_claim, hdp, hfs, hex, hct, ham]

/-- C7: the field parser is total (the embedding is a total function
mirroring the Python, where neither `re.search` nor `float` on the matched
shape can raise, and a missing field is `none`, not an error), and behaves
as claimed on the reference inputs: the two reference parses, matching
case-insensitively, first match winning for both fields, and commas
stripped from the amount before numeric conversion. -/
theorem C7_field_parse_behavior :
    parse_claim_text "Claim Type: Travel\nAmount: $120.00"
        = { claim_type := some "Travel", amount := some 120 }
    ∧ parse_claim_text "Claim Type: Auto" = { claim_type := some "Auto", amount := none }
    ∧ parse_claim_text "claim type: Travel\namount: $120.00"
        = { claim_type := some "Travel", amount := some 120 }
    ∧ parse_claim_text "Claim Type: Auto\nClaim Type: Home\nAmount: 1.00\nAmount: 2.00"
        = { claim_type := some "Auto", amount := some 1 }
    ∧ parse_claim_text "Amount: $1,234.56"
        = { claim_type := none, amount := some (123456 / 100) } := by
  refine ⟨?_, ?_, ?_, ?_, ?_⟩
  · refine parse_eval _ (some "Travel") (['1', '2', '0'], '0', '0') 120
      (by decide) (by decide) ?_
    rw [show amountCents ['1', '2', '0'] '0' '0' = 12000 from by decide]
    norm_num
  · unfold parse_claim_text
    rw [searchAmount]
    rw [show searchAmountParts "Claim Type: Auto".toList = none from by decide]
    rw [show (searchClaimType "Claim Type: Auto".toList).map (fun w => String.mk w)
        = some "Auto" from by decide]
    rfl
  · refine parse_eval _ (some "Travel") (['1', '2', '0'], '0', '0') 120
      (by decide) (by decide) ?_
    rw [show amountCents ['1', '2', '0'] '0' '0' = 12000 from by decide]
    norm_num
  · refine parse_eval _ (some "Auto") (['1'], '0', '0') 1 (by decide) (by decide) ?_
    rw [show amountCents ['1'] '0' '0' = 100 from by decide]
    norm_num
  · refine parse_eval _ none (['1', ',', '2', '3', '4'], '5', '6') (123456 / 100)
      (by decide) (by decide) ?_
    rw [show amountCents ['1', ',', '2', '3', '4'] '5' '6' = 123456 from by decide]
    norm_num

/-- C10: every amount the parser returns is nonnegative — the amount pattern
captures only an unsigned digit-and-comma group with two fraction digits, so
its value is a quotient of naturals; and the minus-signed reference input
yields no amount at all. -/
theorem C10_amount_nonneg :
    (∀ (text : String) (q : ℚ), (parse_claim_text text).amount = some q → 0 ≤ q)
    ∧ (parse_claim_text "Amount: -120.00").amount = none := by
  constructor
  · intro text q h
    have h' : searchAmount text.toList = some q := h
    rcases hparts : searchAmountParts text.toList with _ | pp
    · rw [searchAmount, hparts] at h'
      simp at h'
    · rw [searchAmount, hparts, Option.map_some'] at h'
      have hq := Option.some.inj h'
      rw [← hq, amountVal]
      positivity
  · show searchAmount "Amount: -120.00".toList = none
    rw [searchAmount, show searchAmountParts "Amount: -120.00".toList = none from by decide]
    rfl

/-- Witness for C10: a concrete parsed amount, nonnegative by the theorem. -/
theorem C10_amount_nonneg_witness :
    (parse_claim_text "Amount: 3.50").amount = some (7 / 2) ∧ (0 : ℚ) ≤ 7 / 2 := by
  have h : (parse_claim_text "Amount: 3.50").amount = some (7 / 2) := by
    show searchAmount "Amount: 3.50".toList = some (7 / 2)
    rw [searchAmount,
      show searchAmountParts "Amount: 3.50".toList = some (['3'], '5', '0') from by decide,
      Option.map_some']
    rw [show amountVal ['3'] '5' '0' = 7 / 2 from by
      rw [amountVal, show amountCents ['3'] '5' '0' = 350 from by decide]; norm_num]
  exact ⟨h, C10_amount_nonneg.1 "Amount: 3.50" (7 / 2) h⟩
